import Mathlib

/-!
Verification of the nginx log watcher (`src/watcher/watcher.py`).

This file shallowly embeds the stateful core of `LogWatcher`:
the line parser (`parse_log_line`), the trailing request window
(a `deque` with `maxlen`), the error-rate statistic
(`calculate_error_rate`), the failover edge detector
(`detect_failover`), the alert cooldown gate (`can_send_alert` /
`send_slack_alert`) and the per-line driver (`process_log_line`).

Side effects that leave the core (logging, the actual HTTP POST to
Slack, reading the file) are not modelled; `time.time()` is passed in
as an explicit rational `now`, and the Boolean returned by the alert
path means "the gate allowed a dispatch attempt" (the network outcome
is external).  Python floats are modelled as exact rationals.
-/

namespace Watcher

/-- ASCII word characters, modelling `\w` in the parsing regex
`(\w+):([^|]+)` (the logs at hand are ASCII). -/
def isWordChar (c : Char) : Bool :=
  (('a' ≤ c && c ≤ 'z') || ('A' ≤ c && c ≤ 'Z') || c.isDigit || c == '_')

/-- Value of a nonempty all-digit string, `none` otherwise. -/
def digitsToNat (ds : List Char) : Option ℕ :=
  if ds.isEmpty then none
  else if ds.all Char.isDigit then
    some (ds.foldl (fun a c => a * 10 + (c.toNat - Char.toNat '0')) 0)
  else none

/-- Surrounding-whitespace stripping, as done by Python numeric
conversion before reading the literal. -/
def pyStrip (s : String) : List Char :=
  ((s.data.dropWhile Char.isWhitespace).reverse.dropWhile Char.isWhitespace).reverse

/-- Model of Python `int(s)` on a string: surrounding whitespace is
stripped, an optional sign precedes a nonempty digit run.  (Underscore
digit grouping is elided; no claim depends on it.)  `none` models the
`ValueError` that the source catches. -/
def pyInt? (s : String) : Option ℤ :=
  match pyStrip s with
  | '-' :: ds => (digitsToNat ds).map (fun n => -(n : ℤ))
  | '+' :: ds => (digitsToNat ds).map (fun n => (n : ℤ))
  | ds => (digitsToNat ds).map (fun n => (n : ℤ))

/-- Sign prefix of a numeric literal: `(sign, rest)`. -/
def splitSign : List Char → ℚ × List Char
  | '-' :: r => (-1, r)
  | '+' :: r => (1, r)
  | r => (1, r)

/-- Decimal mantissa `d+ | d+.d* | .d+` with optional sign, as an
exact rational. -/
def parseMantissa (cs : List Char) : Option ℚ :=
  let sr := splitSign cs
  let ir := sr.2.span Char.isDigit
  match ir.2 with
  | [] =>
    (digitsToNat ir.1).map (fun n => sr.1 * (n : ℚ))
  | '.' :: fp =>
    if fp.all Char.isDigit && (!ir.1.isEmpty || !fp.isEmpty) then
      let ipv : ℕ := (digitsToNat ir.1).getD 0
      let fpv : ℕ := (digitsToNat fp).getD 0
      some (sr.1 * ((ipv : ℚ) + (fpv : ℚ) / (10 : ℚ) ^ fp.length))
    else none
  | _ => none

/-- Exponent part `[+-]d+` of a float literal. -/
def parseExponent (cs : List Char) : Option ℤ :=
  match cs with
  | '-' :: ds => (digitsToNat ds).map (fun n => -(n : ℤ))
  | '+' :: ds => (digitsToNat ds).map (fun n => (n : ℤ))
  | ds => (digitsToNat ds).map (fun n => (n : ℤ))

/-- Model of Python `float(s)` on a string, as an exact rational:
stripped, optional sign, decimal mantissa, optional `e`/`E` exponent.
(`inf`/`nan` spellings are elided: they have no rational value and no
claim depends on them.)  `none` models the caught `ValueError`. -/
def pyFloat? (s : String) : Option ℚ :=
  let cs := pyStrip s
  let mant := cs.takeWhile (fun c => c != 'e' && c != 'E')
  let rest := cs.dropWhile (fun c => c != 'e' && c != 'E')
  match rest with
  | [] => parseMantissa mant
  | _ :: ex =>
    match parseMantissa mant, parseExponent ex with
    | some m, some e => some (m * (10 : ℚ) ^ e)
    | _, _ => none

/-- Worker for `findTokens`, structurally recursive on a fuel bound.
Every recursive call strictly consumes input, so any fuel of at least
the input length yields the fixpoint behaviour. -/
def findTokensGo (fuel : ℕ) (cs : List Char) : List (String × String) :=
  match fuel, cs with
  | 0, _ => []
  | _, [] => []
  | fuel + 1, c :: rest =>
    if isWordChar c then
      let w := (c :: rest).takeWhile isWordChar
      match (c :: rest).dropWhile isWordChar with
      | ':' :: afterColon =>
        let v := afterColon.takeWhile (fun ch => ch != '|')
        if v.isEmpty then findTokensGo fuel rest
        else (String.mk w, String.mk v) ::
          findTokensGo fuel (afterColon.dropWhile (fun ch => ch != '|'))
      | _ => findTokensGo fuel rest
    else findTokensGo fuel rest

/-- Model of `re.findall(r'(\w+):([^|]+)', line)`: scan left to right;
a match is a maximal nonempty word-character run, a `:`, and a maximal
nonempty run of non-`|` characters; scanning resumes after each match,
otherwise one character later.  (Fuel `cs.length` is always enough:
each scanner step consumes at least one character.) -/
def findTokens (cs : List Char) : List (String × String) :=
  findTokensGo cs.length cs

/-- Model of `dict(matches).get(k)`: the value of the LAST pair with
key `k` (later pairs overwrite earlier ones in `dict`). -/
def dictGet (ps : List (String × String)) (k : String) : Option String :=
  ps.reverse.lookup k

/-- The parsed record built by `parse_log_line` (the `parsed` dict):
`status` an integer, `request_time` a float (exact rational here),
everything else strings. -/
structure RequestRecord where
  timestamp : String
  remote_addr : String
  method : String
  uri : String
  status : ℤ
  request_time : ℚ
  upstream_addr : String
  upstream_status : String
  upstream_response_time : String
  pool : String
  release : String
deriving DecidableEq, Repr

/-- `LogWatcher.parse_log_line`: token extraction via the regex, then
field defaults.  A missing `status`/`request_time` key defaults to the
Python integer `0` (so conversion succeeds with 0 / 0.0); a PRESENT
but non-convertible value raises inside the `try`, which the
`except Exception` turns into `None` — modelled as `none`. -/
def parse_log_line (line : String) : Option RequestRecord :=
  let log_data := findTokens line.data
  let statusVal : Option ℤ :=
    match dictGet log_data "status" with
    | none => some 0
    | some s => pyInt? s
  let rtVal : Option ℚ :=
    match dictGet log_data "request_time" with
    | none => some 0
    | some s => pyFloat? s
  match statusVal, rtVal with
  | some st, some rt =>
    some {
      timestamp := (dictGet log_data "time").getD ""
      remote_addr := (dictGet log_data "remote_addr").getD ""
      method := (dictGet log_data "method").getD ""
      uri := (dictGet log_data "uri").getD ""
      status := st
      request_time := rt
      upstream_addr := (dictGet log_data "upstream_addr").getD ""
      upstream_status := (dictGet log_data "upstream_status").getD ""
      upstream_response_time := (dictGet log_data "upstream_response_time").getD ""
      pool := (dictGet log_data "pool").getD "unknown"
      release := (dictGet log_data "release").getD "unknown" }
  | _, _ => none

/-- The `if 500 <= req.get('status', 0) < 600` test (status is always
present on parsed records). -/
def is5xx (r : RequestRecord) : Bool :=
  decide (500 ≤ r.status) && decide (r.status < 600)

/-- `LogWatcher.calculate_error_rate`: 0.0 on an empty window, else
`(error_count / len(window)) * 100` (exact rational arithmetic). -/
def calculate_error_rate (w : List RequestRecord) : ℚ :=
  if w.isEmpty then 0
  else ((w.countP is5xx : ℚ) / (w.length : ℚ)) * 100

/-- One `append` on `deque(maxlen=window_size)`: the record goes to
the tail and the oldest element is evicted when the length would
exceed `window_size`. -/
def dequeAppend (window_size : ℕ) (w : List RequestRecord) (r : RequestRecord) :
    List RequestRecord :=
  let w2 := w ++ [r]
  if window_size < w2.length then w2.drop (w2.length - window_size) else w2

/-- The immutable configuration read from the environment in
`LogWatcher.__init__`. -/
structure Config where
  slack_webhook_url : String
  error_rate_threshold : ℚ
  window_size : ℕ
  alert_cooldown_sec : ℤ
  maintenance_mode : Bool

/-- The `last_alert_time` dict: alert type ↦ last allowed dispatch
time.  Updates prepend, lookups take the first (= most recent) hit. -/
abbrev Ledger := List (String × ℚ)

/-- `self.last_alert_time.get(alert_type, 0)`. -/
def ledgerGet (ledger : Ledger) (alert_type : String) : ℚ :=
  (ledger.lookup alert_type).getD 0

/-- `LogWatcher.can_send_alert`: `now` is the `time.time()` value.
Returns the Boolean together with the updated `last_alert_time`
(updated exactly when the alert is allowed). -/
def can_send_alert (cfg : Config) (ledger : Ledger) (now : ℚ) (alert_type : String) :
    Bool × Ledger :=
  let last_time := ledgerGet ledger alert_type
  if now - last_time < (cfg.alert_cooldown_sec : ℚ) then (false, ledger)
  else (true, (alert_type, now) :: ledger)

/-- `LogWatcher.send_slack_alert`, up to the gate: empty webhook URL
→ false; maintenance mode → false; else defer to `can_send_alert`.
The message formatting and HTTP POST are external effects; the Bool
here means "the gate allowed a dispatch attempt". -/
def send_slack_alert (cfg : Config) (ledger : Ledger) (now : ℚ) (alert_type : String) :
    Bool × Ledger :=
  if cfg.slack_webhook_url = "" then (false, ledger)
  else if cfg.maintenance_mode then (false, ledger)
  else can_send_alert cfg ledger now alert_type

/-- The mutable state of a `LogWatcher` (the log-file handle and
logging excluded). -/
structure WatcherState where
  last_seen_pool : Option String
  request_window : List RequestRecord
  last_alert_time : Ledger
deriving DecidableEq, Repr

/-- The fresh state built in `LogWatcher.__init__`. -/
def initState : WatcherState :=
  { last_seen_pool := none, request_window := [], last_alert_time := [] }

/-- `LogWatcher.detect_failover`: fires (message + Slack attempt) when
`self.last_seen_pool` is truthy (non-`None`, nonempty — Python `and`)
and the current pool differs; afterwards `last_seen_pool` is set to
the current pool unconditionally.  The second component is the
FailoverEvent `(from, to)` when one fired. -/
def detect_failover (cfg : Config) (st : WatcherState) (now : ℚ) (current_pool : String) :
    WatcherState × Option (String × String) :=
  match st.last_seen_pool with
  | some prev =>
    if prev ≠ "" ∧ current_pool ≠ prev then
      let res := send_slack_alert cfg st.last_alert_time now "failover"
      ({ st with last_seen_pool := some current_pool, last_alert_time := res.2 },
        some (prev, current_pool))
    else ({ st with last_seen_pool := some current_pool }, none)
  | none => ({ st with last_seen_pool := some current_pool }, none)

/-- `LogWatcher.monitor_error_rate`: append to the rolling window,
recompute the rate, and attempt an `error_rate` alert when the rate
exceeds the threshold AND `len(window) >= window_size * 0.5`.  The
Bool is the candidate-alert condition (`send_slack_alert` called). -/
def monitor_error_rate (cfg : Config) (st : WatcherState) (now : ℚ)
    (log_entry : RequestRecord) : WatcherState × Bool :=
  let w := dequeAppend cfg.window_size st.request_window log_entry
  let rate := calculate_error_rate w
  if rate > cfg.error_rate_threshold ∧ (w.length : ℚ) ≥ (cfg.window_size : ℚ) * (1 / 2) then
    let res := send_slack_alert cfg st.last_alert_time now "error_rate"
    ({ st with request_window := w, last_alert_time := res.2 }, true)
  else ({ st with request_window := w }, false)

/-- `LogWatcher.process_log_line`: parse; drop the line on parse
failure or `pool == 'unknown'`; otherwise run the failover detector
then the error-rate monitor.  Result: new state, the failover event
(if any), and the error-rate candidate flag. -/
def process_log_line (cfg : Config) (st : WatcherState) (now : ℚ) (line : String) :
    WatcherState × Option (String × String) × Bool :=
  match parse_log_line line with
  | none => (st, none, false)
  | some log_entry =>
    if log_entry.pool = "unknown" then (st, none, false)
    else
      let r1 := detect_failover cfg st now log_entry.pool
      let r2 := monitor_error_rate cfg r1.1 now log_entry
      (r2.1, r1.2, r2.2)

/-- The failover detector's `observe` interface: the composition of
the `pool == 'unknown'` guard in `process_log_line` with
`detect_failover` (the guard is what keeps the sentinel out of the
detector). -/
def observe (cfg : Config) (st : WatcherState) (now : ℚ) (pool : String) :
    WatcherState × Option (String × String) :=
  if pool = "unknown" then (st, none) else detect_failover cfg st now pool

/-- Folding `dequeAppend` over a list of records starting from the
empty window (the window's whole reachable state space). -/
def appendAll (window_size : ℕ) (rs : List RequestRecord) : List RequestRecord :=
  rs.foldl (dequeAppend window_size) []

theorem dequeAppend_eq_drop (m : ℕ) (w : List RequestRecord) (r : RequestRecord) :
    dequeAppend m w r = (w ++ [r]).drop ((w.length + 1) - m) := by
  unfold dequeAppend
  simp only [List.length_append, List.length_cons, List.length_nil, Nat.zero_add]
  by_cases h : m < w.length + 1
  · simp [h]
  · have h0 : w.length + 1 - m = 0 := by omega
    simp [h, h0]

theorem foldl_dequeAppend_eq_drop (m : ℕ) :
    ∀ (rs w : List RequestRecord), w.length ≤ m →
      List.foldl (dequeAppend m) w rs = (w ++ rs).drop (w.length + rs.length - m)
  | [], w, hw => by
    simp [Nat.sub_eq_zero_of_le hw]
  | r :: rs, w, hw => by
    have hlen : (dequeAppend m w r).length = (w.length + 1) - ((w.length + 1) - m) := by
      rw [dequeAppend_eq_drop]
      simp [List.length_drop]
    have hle : (dequeAppend m w r).length ≤ m := by omega
    rw [List.foldl_cons, foldl_dequeAppend_eq_drop m rs _ hle, hlen,
      dequeAppend_eq_drop]
    rw [← List.drop_append_of_le_length (by simp), List.drop_drop]
    have harr : (w ++ [r]) ++ rs = w ++ r :: rs := by simp
    rw [harr]
    congr 1
    simp only [List.length_cons]
    omega

/-- The window reachable after appending `rs` to a fresh watcher is
exactly the last `min windowSize (length rs)` records, in order. -/
theorem appendAll_eq_drop (m : ℕ) (rs : List RequestRecord) :
    appendAll m rs = rs.drop (rs.length - m) := by
  unfold appendAll
  simpa using foldl_dequeAppend_eq_drop m rs [] (by simp)

theorem appendAll_length (m : ℕ) (rs : List RequestRecord) :
    (appendAll m rs).length = min m rs.length := by
  rw [appendAll_eq_drop, List.length_drop]
  omega

attribute [local semireducible] Rat.add Rat.sub Rat.mul Rat.inv

theorem can_send_alert_eq (cfg : Config) (ledger : Ledger) (now : ℚ) (a : String) :
    can_send_alert cfg ledger now a =
      if now - ledgerGet ledger a < (cfg.alert_cooldown_sec : ℚ)
      then (false, ledger) else (true, (a, now) :: ledger) := rfl

theorem ledgerGet_cons_self (a : String) (t : ℚ) (l : Ledger) :
    ledgerGet ((a, t) :: l) a = t := by
  simp [ledgerGet, List.lookup]

theorem ledgerGet_cons_ne (a b : String) (t : ℚ) (l : Ledger) (h : b ≠ a) :
    ledgerGet ((a, t) :: l) b = ledgerGet l b := by
  have hb : (b == a) = false := by simpa using h
  simp [ledgerGet, List.lookup, hb]

/-- C4: with `maintenance_mode` set, the alert gate refuses every
alert type at every time and leaves the cooldown ledger untouched, so
the cooldown baseline after maintenance is still the last allowed
dispatch. -/
theorem maintenance_suppresses_without_ledger_touch
    (cfg : Config) (ledger : Ledger) (now : ℚ) (alert_type : String)
    (hm : cfg.maintenance_mode = true) :
    send_slack_alert cfg ledger now alert_type = (false, ledger) := by
  unfold send_slack_alert
  by_cases hu : cfg.slack_webhook_url = "" <;> simp [hu, hm]

theorem maintenance_suppresses_without_ledger_touch_witness :
    send_slack_alert ⟨"http://hook", 2, 200, 300, true⟩ [("failover", 5)] 1000 "failover"
      = (false, [("failover", 5)]) :=
  maintenance_suppresses_without_ledger_touch _ _ _ _ rfl

/-- C5: once an `alert_type` dispatch is allowed at time `t`, any call
of the same type less than `alert_cooldown_sec` later is refused, the
call at exactly `t + alert_cooldown_sec` is allowed again, and the
new ledger entry never changes the answer for a different alert
type. -/
theorem cooldown_gap (cfg : Config) (ledger : Ledger) (a : String) (t : ℚ)
    (h : (can_send_alert cfg ledger t a).1 = true) :
    (∀ s : ℚ, s - t < (cfg.alert_cooldown_sec : ℚ) →
      (can_send_alert cfg (can_send_alert cfg ledger t a).2 s a).1 = false) ∧
    (can_send_alert cfg (can_send_alert cfg ledger t a).2
      (t + (cfg.alert_cooldown_sec : ℚ)) a).1 = true ∧
    (∀ (b : String) (s : ℚ), b ≠ a →
      (can_send_alert cfg (can_send_alert cfg ledger t a).2 s b).1 =
        (can_send_alert cfg ledger s b).1) := by
  rw [can_send_alert_eq] at h
  by_cases hc : t - ledgerGet ledger a < (cfg.alert_cooldown_sec : ℚ)
  · rw [if_pos hc] at h
    exact absurd h (by simp)
  · have h2 : (can_send_alert cfg ledger t a).2 = (a, t) :: ledger := by
      rw [can_send_alert_eq, if_neg hc]
    refine ⟨?_, ?_, ?_⟩
    · intro s hs
      rw [h2, can_send_alert_eq, ledgerGet_cons_self, if_pos hs]
    · rw [h2, can_send_alert_eq, ledgerGet_cons_self, if_neg (by simp)]
    · intro b s hb
      rw [h2, can_send_alert_eq, can_send_alert_eq, ledgerGet_cons_ne _ _ _ _ hb]
      by_cases h3 : s - ledgerGet ledger b < (cfg.alert_cooldown_sec : ℚ) <;>
        simp [h3]

theorem cooldown_gap_witness :
    (can_send_alert ⟨"u", 2, 200, 300, false⟩
      (can_send_alert ⟨"u", 2, 200, 300, false⟩ [] 1000 "failover").2
      1299 "failover").1 = false ∧
    (can_send_alert ⟨"u", 2, 200, 300, false⟩
      (can_send_alert ⟨"u", 2, 200, 300, false⟩ [] 1000 "failover").2
      (1000 + ((300 : ℤ) : ℚ)) "failover").1 = true ∧
    (can_send_alert ⟨"u", 2, 200, 300, false⟩
      (can_send_alert ⟨"u", 2, 200, 300, false⟩ [] 1000 "failover").2
      500 "error_rate").1 =
      (can_send_alert ⟨"u", 2, 200, 300, false⟩ [] 500 "error_rate").1 := by
  have h := cooldown_gap ⟨"u", 2, 200, 300, false⟩ [] "failover" 1000 (by decide)
  exact ⟨h.1 1299 (by norm_num), h.2.1, h.2.2 "error_rate" 500 (by decide)⟩

/-- C10: an alert type with no ledger entry is treated as last
dispatched at time 0, so with a webhook configured, maintenance off
and `now` at least the cooldown, the first call is allowed and records
`now` as the type's last dispatch. -/
theorem first_alert_allowed (cfg : Config) (ledger : Ledger) (now : ℚ) (a : String)
    (hurl : ¬ cfg.slack_webhook_url = "") (hm : cfg.maintenance_mode = false)
    (hl : ledger.lookup a = none) (hn : (cfg.alert_cooldown_sec : ℚ) ≤ now) :
    send_slack_alert cfg ledger now a = (true, (a, now) :: ledger) ∧
    ledgerGet ((a, now) :: ledger) a = now := by
  refine ⟨?_, ledgerGet_cons_self a now ledger⟩
  unfold send_slack_alert
  rw [if_neg hurl, hm, if_neg (by simp), can_send_alert_eq]
  have h0 : ledgerGet ledger a = 0 := by simp [ledgerGet, hl]
  rw [h0, if_neg (by simpa using not_lt.mpr hn)]

theorem first_alert_allowed_witness :
    send_slack_alert ⟨"http://hook", 2, 200, 300, false⟩ [] 400 "failover"
      = (true, [("failover", 400)]) ∧
    ledgerGet [("failover", 400)] "failover" = 400 :=
  first_alert_allowed ⟨"http://hook", 2, 200, 300, false⟩ [] 400 "failover"
    (by decide) rfl rfl (by norm_num)

/-- A 5xx record (status 503), for concrete witnesses. -/
def rec503 : RequestRecord :=
  { timestamp := "", remote_addr := "", method := "", uri := "", status := 503,
    request_time := 0, upstream_addr := "", upstream_status := "",
    upstream_response_time := "", pool := "blue", release := "unknown" }

/-- A non-5xx record (status 200), for concrete witnesses. -/
def rec200 : RequestRecord :=
  { timestamp := "", remote_addr := "", method := "", uri := "", status := 200,
    request_time := 0, upstream_addr := "", upstream_status := "",
    upstream_response_time := "", pool := "blue", release := "unknown" }

/-- C6: the error rate is exactly 0 on an empty window and exactly
`100 * E / N` on a window of `N` records of which `E` are 5xx. -/
theorem error_rate_formula :
    calculate_error_rate [] = 0 ∧
    ∀ w : List RequestRecord, w ≠ [] →
      calculate_error_rate w = 100 * (w.countP is5xx : ℚ) / (w.length : ℚ) := by
  refine ⟨rfl, ?_⟩
  intro w hw
  unfold calculate_error_rate
  rw [if_neg (by simpa using hw)]
  ring

theorem error_rate_formula_witness :
    calculate_error_rate [rec503, rec200] =
      100 * (([rec503, rec200].countP is5xx : ℚ)) / (([rec503, rec200].length : ℚ)) :=
  error_rate_formula.2 [rec503, rec200] (by simp)

theorem appendAll_cons_evict (m : ℕ) (r : RequestRecord) (rs : List RequestRecord)
    (h : m ≤ rs.length) : appendAll m (r :: rs) = appendAll m rs := by
  rw [appendAll_eq_drop, appendAll_eq_drop]
  simp only [List.length_cons]
  have he : rs.length + 1 - m = (rs.length - m) + 1 := by omega
  rw [he, List.drop_succ_cons]

/-- C7: the window built by any sequence of appends has length
`min windowSize totalAppended` (hence always at most `windowSize`),
and eviction is FIFO — once `windowSize` further records have been
appended, the oldest record has left the window and no longer affects
any later error-rate computation. -/
theorem window_invariant (m : ℕ) :
    (∀ rs : List RequestRecord, (appendAll m rs).length = min m rs.length) ∧
    (∀ (r : RequestRecord) (rs : List RequestRecord), m ≤ rs.length →
      appendAll m (r :: rs) = appendAll m rs) ∧
    (∀ (r : RequestRecord) (rs more : List RequestRecord), m ≤ rs.length →
      calculate_error_rate (appendAll m (r :: (rs ++ more))) =
        calculate_error_rate (appendAll m (rs ++ more))) := by
  refine ⟨appendAll_length m, appendAll_cons_evict m, ?_⟩
  intro r rs more h
  rw [appendAll_cons_evict m r (rs ++ more) (by rw [List.length_append]; omega)]

theorem window_invariant_witness :
    (appendAll 2 [rec503, rec200, rec200]).length = min 2 3 ∧
    appendAll 2 (rec503 :: [rec200, rec200]) = appendAll 2 [rec200, rec200] ∧
    calculate_error_rate (appendAll 2 (rec503 :: ([rec200, rec200] ++ []))) =
      calculate_error_rate (appendAll 2 ([rec200, rec200] ++ [])) := by
  have h := window_invariant 2
  exact ⟨h.1 [rec503, rec200, rec200],
    h.2.1 rec503 [rec200, rec200] (by decide),
    h.2.2 rec503 [rec200, rec200] [] (by decide)⟩

/-- C8: after the append, the error-rate candidate alert is attempted
exactly when the recomputed rate exceeds the threshold and the window
is at least half of `windowSize` full. -/
theorem error_rate_alert_iff (cfg : Config) (st : WatcherState) (now : ℚ)
    (r : RequestRecord) :
    (monitor_error_rate cfg st now r).2 = true ↔
      (calculate_error_rate (dequeAppend cfg.window_size st.request_window r) >
          cfg.error_rate_threshold ∧
        ((dequeAppend cfg.window_size st.request_window r).length : ℚ) ≥
          (cfg.window_size : ℚ) * (1 / 2)) := by
  unfold monitor_error_rate
  simp only []
  split
  next h => simpa using h
  next h => simpa using h

/-- C2: observing the `"unknown"` sentinel when a pool has already
been seen emits no failover event and leaves the whole state — in
particular `last_seen_pool` — unchanged at its previous value. -/
theorem observe_unknown_noop (cfg : Config) (st : WatcherState) (now : ℚ) (p : String)
    (h : st.last_seen_pool = some p) :
    observe cfg st now "unknown" = (st, none) ∧
    (observe cfg st now "unknown").1.last_seen_pool = some p := by
  have he : observe cfg st now "unknown" = (st, none) := by simp [observe]
  exact ⟨he, by rw [he]; exact h⟩

theorem observe_unknown_noop_witness :
    observe ⟨"u", 2, 200, 300, false⟩ ⟨some "blue", [], []⟩ 0 "unknown" =
      (⟨some "blue", [], []⟩, none) ∧
    (observe ⟨"u", 2, 200, 300, false⟩ ⟨some "blue", [], []⟩ 0 "unknown").1.last_seen_pool =
      some "blue" :=
  observe_unknown_noop _ _ _ "blue" rfl

/-- The record `parse_log_line` builds when no token matches: every
field takes its default. -/
def defaultRecord : RequestRecord :=
  { timestamp := "", remote_addr := "", method := "", uri := "", status := 0,
    request_time := 0, upstream_addr := "", upstream_status := "",
    upstream_response_time := "", pool := "unknown", release := "unknown" }

/-- C9: a line whose parse fails, or whose parsed pool is the
`"unknown"` sentinel, is invisible: processing it changes neither the
window, nor `last_seen_pool`, nor the cooldown ledger, and attempts no
alert. -/
theorem skip_line_frame (cfg : Config) (st : WatcherState) (now : ℚ) (line : String)
    (h : parse_log_line line = none ∨
      ∃ e, parse_log_line line = some e ∧ e.pool = "unknown") :
    process_log_line cfg st now line = (st, none, false) := by
  unfold process_log_line
  rcases h with h | ⟨e, he, hp⟩
  · rw [h]
  · rw [he]
    simp [hp]

theorem skip_line_frame_witness :
    process_log_line ⟨"u", 2, 200, 300, false⟩ ⟨some "blue", [], []⟩ 0 "status:bad|pool:blue"
      = (⟨some "blue", [], []⟩, none, false) ∧
    process_log_line ⟨"u", 2, 200, 300, false⟩ ⟨some "blue", [], []⟩ 0 "uri:/x"
      = (⟨some "blue", [], []⟩, none, false) :=
  ⟨skip_line_frame _ _ _ _ (Or.inl (by decide)),
    skip_line_frame _ _ _ _
      (Or.inr ⟨{ defaultRecord with uri := "/x" }, by decide, by decide⟩)⟩

/-- C1 counterexample: `"status:abc|pool:blue"` carries a `status`
token whose value is not numerically convertible, yet `parse_log_line`
returns a parse failure rather than a record with `status = 0` and the
`pool` field parsed. -/
theorem malformed_status_fails_parse_cex :
    findTokens ("status:abc|pool:blue").data = [("status", "abc"), ("pool", "blue")] ∧
    pyInt? "abc" = none ∧
    parse_log_line "status:abc|pool:blue" = none := by
  refine ⟨by decide, by decide, by decide⟩

/-- C1 (amended): a `status` or `request_time` token whose value fails
numeric conversion makes `parse_log_line` fail for the whole line (the
exception aborts the record); the 0 / 0.0 defaults apply only when the
token is absent. -/
theorem malformed_numeric_fails_parse (line : String)
    (h : (∃ s, dictGet (findTokens line.data) "status" = some s ∧ pyInt? s = none) ∨
      (∃ s, dictGet (findTokens line.data) "request_time" = some s ∧ pyFloat? s = none)) :
    parse_log_line line = none := by
  rcases h with ⟨s, hs, hn⟩ | ⟨s, hs, hn⟩ <;>
    (unfold parse_log_line; simp only []; rw [hs]; simp only [hn]) <;>
    first
    | rfl
    | (split <;> simp_all)

theorem malformed_numeric_fails_parse_witness :
    parse_log_line "status:abc|pool:blue" = none ∧
    parse_log_line "request_time:xyz|pool:blue" = none :=
  ⟨malformed_numeric_fails_parse _ (Or.inl ⟨"abc", by decide, by decide⟩),
    malformed_numeric_fails_parse _ (Or.inr ⟨"xyz", by decide, by decide⟩)⟩

/-- C3 counterexample: on `"!!!"` no `key:value` token matches, yet
`parse_log_line` returns a `RequestRecord` (the all-defaults record),
not a parse failure. -/
theorem unmatched_line_parses_cex :
    findTokens ("!!!").data = [] ∧
    parse_log_line "!!!" = some defaultRecord := by
  refine ⟨by decide, by decide⟩

/-- C3 (amended): a line in which no `key:value` token matches parses
to the all-defaults record (with the `"unknown"` pool sentinel), and
the caller discards the line — through the unknown-pool guard rather
than a parse failure — without any state change. -/
theorem unmatched_line_default_record (line : String) (cfg : Config)
    (st : WatcherState) (now : ℚ)
    (h : findTokens line.data = []) :
    parse_log_line line = some defaultRecord ∧
    process_log_line cfg st now line = (st, none, false) := by
  have hp : parse_log_line line = some defaultRecord := by
    unfold parse_log_line
    rw [h]
    rfl
  refine ⟨hp, ?_⟩
  unfold process_log_line
  rw [hp]
  rfl

theorem unmatched_line_default_record_witness :
    parse_log_line "!!!" = some defaultRecord ∧
    process_log_line ⟨"u", 2, 200, 300, false⟩ ⟨some "blue", [], []⟩ 0 "!!!"
      = (⟨some "blue", [], []⟩, none, false) :=
  unmatched_line_default_record "!!!" ⟨"u", 2, 200, 300, false⟩
    ⟨some "blue", [], []⟩ 0 (by decide)

end Watcher
